import Mathlib

/-!
Verification of `my_plots.py`: a thin matplotlib wrapper with one
orchestrator (`plot_any`), three render strategies (`lines`, `points`,
`vlines`) and a tick formatter (`ps_time`).

Numbers are modelled as rationals.  Python's float format `{:1.0f}`
rounds to the nearest integer with ties to even and prints `-0` when a
negative value rounds to zero; `fmt0`/`pyFormat1_0f` model that on ℚ.
The scale factors `1e-6`/`1e-3` are modelled as the exact rationals
1/1000000 and 1/1000 (the doubles agree with the exact values at every
input considered here).

The source file's µs format string is double-encoded: its bytes
C3 82 C2 B5 decode (as UTF-8, which is how Python reads the file) to the
two characters U+00C2 U+00B5, i.e. "µ", not the single character µ.
`mangled_micro` reproduces those two characters exactly.
-/

namespace MyPlots

/-- Round a rational to the nearest integer, ties to even
(the rounding used by Python's `{:1.0f}` float formatting).
`f` is the floor of `q` and `r` its nonnegative remainder, so the
fractional part of `q` is `r / q.den`; it is compared with 1/2 by
cross-multiplication. -/
def fmt0 (q : ℚ) : ℤ :=
  let f : ℤ := Int.fdiv q.num q.den
  let r : ℤ := q.num - f * q.den
  if 2 * r < q.den then f
  else if (q.den : ℤ) < 2 * r then f + 1
  else if f % 2 = 0 then f else f + 1

/-- Python `{:1.0f}` formatting of a rational: nearest integer, ties to
even, with a `-0` result when a negative value rounds to zero. -/
def pyFormat1_0f (q : ℚ) : String :=
  if q < 0 ∧ fmt0 q = 0 then "-0" else toString (fmt0 q)

/-- Exact division of a rational by a natural number, written on the
`num`/`den` representation so that it evaluates by kernel reduction.
`scaleDiv_eq_div` below shows it is division by `k`; it models the
source's multiplication by the scale factors 1e-6 and 1e-3. -/
def scaleDiv (q : ℚ) (k : ℕ) : ℚ := mkRat q.num (q.den * k)

/-- The two characters U+00C2 U+00B5 that the source file's bytes
C3 82 C2 B5 decode to (a double-encoded µ). -/
def mangled_micro : String := "Âµ"

/-- `ps_time(x_val, pos)` from the source (lines 123-133): format
picoseconds to larger time units.  `pos` is unused. -/
def ps_time (x_val _pos : ℚ) : String :=
  if x_val = 0 then pyFormat1_0f x_val
  else if 1000000 ≤ x_val then pyFormat1_0f (scaleDiv x_val 1000000) ++ " " ++ mangled_micro ++ "s"
  else if 1000 ≤ x_val then pyFormat1_0f (scaleDiv x_val 1000) ++ " ns"
  else pyFormat1_0f x_val ++ " ps"

/-- `scaleDiv q k` is exactly `q / k`. -/
theorem scaleDiv_eq_div (q : ℚ) (k : ℕ) : scaleDiv q k = q / (k : ℚ) := by
  rw [scaleDiv, Rat.mkRat_eq_div]
  push_cast
  rw [div_mul_eq_div_div]
  congr 1
  exact_mod_cast Rat.num_div_den q

end MyPlots

namespace MyPlots

/-- C1: `ps_time` evaluates its rules in order with first match winning:
0 maps to "0" with no unit; values ≥ 1,000,000 are divided by 10^6 and
formatted as an integer; values ≥ 1,000 are divided by 10^3 with suffix
" ns"; all others get suffix " ps".  However, the suffix the code
attaches in the microsecond branch is " Âµs" (a double-encoded µ),
not the " µs" the claim states. -/
theorem ps_time_first_match (x pos : ℚ) :
    (x = 0 → ps_time x pos = "0") ∧
    (x ≠ 0 → 1000000 ≤ x →
      ps_time x pos = pyFormat1_0f (scaleDiv x 1000000) ++ " " ++ mangled_micro ++ "s" ∧
      ¬ ∃ t : String, ps_time x pos = t ++ " µs") ∧
    (x ≠ 0 → ¬ 1000000 ≤ x → 1000 ≤ x →
      ps_time x pos = pyFormat1_0f (scaleDiv x 1000) ++ " ns") ∧
    (x ≠ 0 → ¬ 1000000 ≤ x → ¬ 1000 ≤ x → ps_time x pos = pyFormat1_0f x ++ " ps") := by
  refine ⟨?_, ?_, ?_, ?_⟩
  · intro hx; subst hx; rfl
  · intro hx h6
    have hps : ps_time x pos = pyFormat1_0f (scaleDiv x 1000000) ++ " " ++ mangled_micro ++ "s" := by
      unfold ps_time; rw [if_neg hx, if_pos h6]
    refine ⟨hps, ?_⟩
    rintro ⟨t, ht⟩
    rw [hps] at ht
    have hlen := congrArg (fun s => s.data.reverse.take 3) ht
    simp [mangled_micro, pyFormat1_0f, String.data_append] at hlen
  · intro hx h6 h3
    unfold ps_time; rw [if_neg hx, if_neg h6, if_pos h3]
  · intro hx h6 h3
    unfold ps_time; rw [if_neg hx, if_neg h6, if_neg h3]

/-- Witness for C1 at the failing input 2,500,000: the microsecond
branch fires and produces "2 Âµs", which is not of the form `t ++ " µs"`. -/
theorem ps_time_first_match_witness :
    ps_time 2500000 0 = "2 " ++ mangled_micro ++ "s" ∧
    ¬ ∃ t : String, ps_time 2500000 0 = t ++ " µs" := by
  have h := (ps_time_first_match 2500000 0).2.1 (by decide) (by decide)
  exact ⟨by rw [h.1]; rfl, h.2⟩

/-- C2: the concrete examples of the spec, as the code actually behaves:
`ps_time 0 _ = "0"`, `ps_time 500 _ = "500 ps"`, `ps_time 1500 _ = "2 ns"`
(ties round to even), but `ps_time 2500000 _` returns "2 Âµs"
(double-encoded µ), not the claimed "2 µs". -/
theorem ps_time_examples (pos : ℚ) :
    ps_time 0 pos = "0" ∧ ps_time 500 pos = "500 ps" ∧ ps_time 1500 pos = "2 ns" ∧
    ps_time 2500000 pos = "2 " ++ mangled_micro ++ "s" ∧ ps_time 2500000 pos ≠ "2 µs" := by
  refine ⟨rfl, rfl, rfl, rfl, ?_⟩
  rw [show ps_time 2500000 pos = "2 " ++ mangled_micro ++ "s" from rfl]
  decide

/-- C9: `ps_time` ignores its second (tick position) argument. -/
theorem ps_time_pos_irrelevant (x p1 p2 : ℚ) : ps_time x p1 = ps_time x p2 := rfl

end MyPlots

namespace MyPlots

/-- The Python exceptions `plot_any` can raise: `KeyError` from the
`exe_func[plotcase]` lookup (the spec's `UnknownPlotKindError`) and
`IndexError` from `labels[index]` (the spec's `LabelCountMismatchError`). -/
inductive PyErr where
  | unknownPlotKind
  | labelCountMismatch
deriving DecidableEq

/-- The keyword options `plot_any` forwards to the render strategies:
`s`/`marker` are read by `points`, `origin` by `vlines`.  `none` means
the keyword was not passed, so the strategy's default applies. -/
structure Kwargs where
  s : Option ℕ
  marker : Option String
  origin : Option ℚ
deriving DecidableEq

/-- One call into the underlying matplotlib axes: `ax.plot`,
`ax.scatter` or `ax.vlines`, with exactly the arguments the source
passes.  Note the `vlines` constructor has no label field: the source's
`vlines` wrapper does not forward its label to `ax.vlines`. -/
inductive AxCall where
  | plot (x y : List ℚ) (color : String) (label : Option String)
  | scatter (x y : List ℚ) (c : String) (label : Option String) (s : ℕ) (marker : String)
  | vlines (x : List ℚ) (ymin : ℚ) (ymax : List ℚ) (colors : String)
deriving DecidableEq, Inhabited

/-- The color argument of a draw call. -/
def AxCall.color : AxCall → String
  | .plot _ _ c _ => c
  | .scatter _ _ c _ _ _ => c
  | .vlines _ _ _ c => c

/-- The label the underlying draw primitive receives (matplotlib's
artist label); `ax.vlines` is called without one. -/
def AxCall.label : AxCall → Option String
  | .plot _ _ _ l => l
  | .scatter _ _ _ l _ _ => l
  | .vlines _ _ _ _ => none

/-- The x-data of a draw call. -/
def AxCall.xdata : AxCall → List ℚ
  | .plot x _ _ _ => x
  | .scatter x _ _ _ _ _ => x
  | .vlines x _ _ _ => x

/-- `lines(ax, x, y, color, label=None)` (source lines 3-4). -/
def lines (x y : List ℚ) (color : String) (label : Option String) (_kw : Kwargs) : AxCall :=
  .plot x y color label

/-- `points(ax, x, y, color, label=None, s=300, marker='x')`
(source lines 6-7). -/
def points (x y : List ℚ) (color : String) (label : Option String) (kw : Kwargs) : AxCall :=
  .scatter x y color label (kw.s.getD 300) (kw.marker.getD "x")

/-- `vlines(ax, x, y, color, label=None, origin=0)` (source lines 9-10).
The label parameter is accepted but not passed on to `ax.vlines`. -/
def vlines (x y : List ℚ) (color : String) (label : Option String) (kw : Kwargs) : AxCall :=
  .vlines x (kw.origin.getD 0) y color

/-- The `exe_func` dispatch dict (source lines 13-17); `none` models a
`KeyError` on lookup. -/
def exe_func (plotcase : String) :
    Option (List ℚ → List ℚ → String → Option String → Kwargs → AxCall) :=
  if plotcase = "lines" then some lines
  else if plotcase = "points" then some points
  else if plotcase = "vlines" then some vlines
  else none

/-- `colorcycle` (source line 19). -/
def colorcycle : List String :=
  ["C0", "C1", "C2", "C3", "C4", "C5", "C6", "C7", "C8", "C9"]

/-- Python truthiness of the `labels` argument (`if labels:`):
`None` and the empty list are falsy. -/
def truthyLabels : Option (List String) → Bool
  | none => false
  | some l => !l.isEmpty

/-- The drawing loop of `plot_any` (source lines 68-76), starting at
`index`.  Returns the draw calls issued before any exception together
with the exception, if one was raised.  Each iteration first evaluates
`exe_func[plotcase]` (KeyError if unknown), then — when `labels` is
truthy — `labels[index]` (IndexError when out of range), matching
Python's evaluation order. -/
def plotLoop (plotcase : String) (kw : Kwargs) (labels : Option (List String)) :
    ℕ → List (List ℚ × List ℚ) → List AxCall × Option PyErr
  | _, [] => ([], none)
  | index, values :: rest =>
    match exe_func plotcase with
    | none => ([], some .unknownPlotKind)
    | some f =>
      if truthyLabels labels then
        match (labels.getD []).get? index with
        | none => ([], some .labelCountMismatch)
        | some lab =>
          let call := f values.1 values.2 (colorcycle.getD (index % colorcycle.length) "")
            (some lab) kw
          let r := plotLoop plotcase kw labels (index + 1) rest
          (call :: r.1, r.2)
      else
        let call := f values.1 values.2 (colorcycle.getD (index % colorcycle.length) "")
          none kw
        let r := plotLoop plotcase kw labels (index + 1) rest
        (call :: r.1, r.2)

/-- The observable state `plot_any` builds: global style, the figure and
its axes, every draw call, and the save/close side effects. -/
structure FigState where
  rcLinewidth : ℚ
  rcFontsize : ℚ
  figsize : ℚ × ℚ
  draws : List AxCall
  xlim : Option (ℚ × ℚ)
  ylim : Option (ℚ × ℚ)
  xlabel : String
  ylabel : String
  title : String
  tickPadX : ℚ
  grid : Bool
  legend : Bool
  legendLinewidth : Option ℚ
  xinverted : Bool
  yinverted : Bool
  xformatter : Option (ℚ → ℚ → String)
  yformatter : Option (ℚ → ℚ → String)
  saved : Option (String × String)
  closed : Bool

/-- One step of the axis-inversion loop (source lines 97-102) acting on
the pair (x inverted?, y inverted?); matplotlib's `invert_xaxis` /
`invert_yaxis` toggle the current direction. -/
def invStep (p : Bool × Bool) (axis : String) : Bool × Bool :=
  if axis = "x" then (!p.1, p.2)
  else if axis = "y" then (p.1, !p.2)
  else p

/-- The whole `for axis in invert:` loop. -/
def invertFold (invert : List String) (p : Bool × Bool) : Bool × Bool :=
  invert.foldl invStep p

/-- The figure state right after `plt.subplots` (source lines 57-65):
rcParams set, figure created, nothing drawn or styled yet. -/
def initState (linewidth : ℚ) : FigState :=
  { rcLinewidth := linewidth, rcFontsize := 30, figsize := (24, 18), draws := [],
    xlim := none, ylim := none, xlabel := "", ylabel := "", title := "",
    tickPadX := 0, grid := false, legend := false, legendLinewidth := none,
    xinverted := false, yinverted := false, xformatter := none, yformatter := none,
    saved := none, closed := false }

/-- `plot_any` (source lines 22-120).  Parameters appear in source order
(defaults: plotcase="lines", labels=None, strings empty, lims None,
show_=true, save=false, grid=false, savename="plot.png", linewidth=5,
formatters None, invert=[], kwargs empty).  Returns the final figure
state together with the exception, if one was raised; when an exception
is raised mid-loop, the state holds the draw calls already issued and
none of the later styling. -/
def plot_any (vals : List (List ℚ × List ℚ)) (plotcase : String)
    (labels : Option (List String)) (title x_label y_label : String)
    (xlims ylims : Option (ℚ × ℚ)) (show_ save grid : Bool) (savename : String)
    (linewidth : ℚ) (formatfuncx formatfuncy : Option (ℚ → ℚ → String))
    (invert : List String) (kw : Kwargs) : FigState × Option PyErr :=
  let r := plotLoop plotcase kw labels 0 vals
  match r.2 with
  | some e => ({ initState linewidth with draws := r.1 }, some e)
  | none =>
    ({ rcLinewidth := linewidth        -- line 61: rcParams line width
       rcFontsize := 30                -- line 62: rcParams font size
       figsize := (24, 18)             -- line 65: plt.subplots(figsize=(24, 18))
       draws := r.1                    -- lines 68-76: the drawing loop
       xlim := xlims                   -- lines 79-80: setting xlim when truthy leaves none as none
       ylim := ylims                   -- lines 81-82
       xlabel := x_label               -- line 83
       ylabel := y_label               -- line 83
       title := title                  -- line 83
       tickPadX := 7                   -- line 86: tick_params pad=7
       grid := grid                    -- line 87
       legend := truthyLabels labels   -- lines 90-92: legend iff labels truthy
       legendLinewidth := if truthyLabels labels then some (5 / 2) else none   -- lines 94-95
       xinverted := (invertFold invert (false, false)).1   -- lines 97-102
       yinverted := (invertFold invert (false, false)).2
       xformatter := formatfuncx       -- lines 105-107: set when truthy, none stays none
       yformatter := formatfuncy       -- lines 108-110
       saved := if save then some (savename, "tight") else none   -- lines 113-114
       closed := !show_ }, none)       -- lines 117-118: plt.close(fig) iff not show

/-- A successful `exe_func` lookup yields one of the three strategies,
with the key naming it. -/
theorem exe_func_cases {pc : String}
    {f : List ℚ → List ℚ → String → Option String → Kwargs → AxCall}
    (hf : exe_func pc = some f) :
    (pc = "lines" ∧ f = lines) ∨ (pc = "points" ∧ f = points) ∨
      (pc = "vlines" ∧ f = vlines) := by
  unfold exe_func at hf
  split_ifs at hf with h1 h2 h3 <;> simp_all

/-- Every strategy passes the color argument straight through to the
axes call. -/
theorem strategy_color {pc : String} {f} (hf : exe_func pc = some f)
    (x y : List ℚ) (c : String) (l : Option String) (kw : Kwargs) :
    (f x y c l kw).color = c := by
  rcases exe_func_cases hf with ⟨_, rfl⟩ | ⟨_, rfl⟩ | ⟨_, rfl⟩ <;> rfl

/-- Every strategy passes the x-data straight through to the axes call. -/
theorem strategy_xdata {pc : String} {f} (hf : exe_func pc = some f)
    (x y : List ℚ) (c : String) (l : Option String) (kw : Kwargs) :
    (f x y c l kw).xdata = x := by
  rcases exe_func_cases hf with ⟨_, rfl⟩ | ⟨_, rfl⟩ | ⟨_, rfl⟩ <;> rfl

/-- `lines` and `points` forward the label to the axes call; `vlines`
drops it. -/
theorem strategy_label {pc : String} {f} (hf : exe_func pc = some f)
    (x y : List ℚ) (c : String) (l : Option String) (kw : Kwargs) :
    (f x y c l kw).label = if pc = "vlines" then none else l := by
  rcases exe_func_cases hf with ⟨hpc, rfl⟩ | ⟨hpc, rfl⟩ | ⟨hpc, rfl⟩ <;> subst hpc <;> rfl

/-- When the plot kind is known and the labels (if truthy) cover every
index, the drawing loop raises nothing and issues one draw call per
series, in order, with the color cycled by index and the label (for
`lines`/`points`) taken positionally. -/
theorem plotLoop_ok (pc : String) (kw : Kwargs) (labels : Option (List String)) {f}
    (hf : exe_func pc = some f) :
    ∀ (vals : List (List ℚ × List ℚ)) (start : ℕ),
    (truthyLabels labels = true → start + vals.length ≤ (labels.getD []).length) →
    (plotLoop pc kw labels start vals).2 = none ∧
    (plotLoop pc kw labels start vals).1.length = vals.length ∧
    ∀ i, i < vals.length →
      ((plotLoop pc kw labels start vals).1.getD i default).color
          = colorcycle.getD ((start + i) % colorcycle.length) "" ∧
      ((plotLoop pc kw labels start vals).1.getD i default).xdata
          = (vals.getD i ([], [])).1 ∧
      ((plotLoop pc kw labels start vals).1.getD i default).label
          = (if pc = "vlines" then none
             else if truthyLabels labels then (labels.getD []).get? (start + i) else none)
  | [], start => by
    intro _
    refine ⟨rfl, rfl, ?_⟩
    intro i hi
    exact absurd hi (by simp)
  | v :: rest, start => by
    intro hlab
    have ih := plotLoop_ok pc kw labels hf rest (start + 1)
      (fun htl => by have := hlab htl; simpa [Nat.add_assoc, Nat.add_comm 1] using this)
    rcases htl : truthyLabels labels with _ | _
    · simp only [plotLoop, hf, htl, Bool.false_eq_true, if_false]
      simp only [htl, Bool.false_eq_true, false_implies, forall_const] at ih
      refine ⟨ih.1, by simpa using ih.2.1, ?_⟩
      intro i hi
      match i with
      | 0 =>
        refine ⟨?_, ?_, ?_⟩
        · simpa using strategy_color hf v.1 v.2 _ none kw
        · simpa using strategy_xdata hf v.1 v.2 _ none kw
        · simpa [htl] using strategy_label hf v.1 v.2 _ none kw
      | i + 1 =>
        have hi' : i < rest.length := by simpa using hi
        have h3 := ih.2.2 i hi'
        simpa [List.getD_cons_succ, Nat.add_assoc, Nat.add_comm 1] using h3
    · have hstart : start < (labels.getD []).length := by
        have := hlab htl; simp at this; omega
      obtain ⟨lab, hget⟩ : ∃ lab, (labels.getD []).get? start = some lab :=
        ⟨_, List.get?_eq_get hstart⟩
      simp only [plotLoop, hf, htl, if_true, hget]
      simp only [htl, true_implies] at ih
      refine ⟨ih.1, by simpa using ih.2.1, ?_⟩
      intro i hi
      match i with
      | 0 =>
        refine ⟨?_, ?_, ?_⟩
        · simpa using strategy_color hf v.1 v.2 _ (some lab) kw
        · simpa using strategy_xdata hf v.1 v.2 _ (some lab) kw
        · have hget' : (labels.getD [])[start]? = some lab := by
            simpa [← List.get?_eq_getElem?] using hget
          simpa [htl, hget'] using strategy_label hf v.1 v.2 _ (some lab) kw
      | i + 1 =>
        have hi' : i < rest.length := by simpa using hi
        have h3 := ih.2.2 i hi'
        simpa [List.getD_cons_succ, Nat.add_assoc, Nat.add_comm 1] using h3

/-- When the plot kind is known but the (non-empty) labels list runs out
before the series do, the loop draws the first `L.length - start` series
and then raises the label-indexing error. -/
theorem plotLoop_short_labels (pc : String) (kw : Kwargs) {f}
    (hf : exe_func pc = some f) (L : List String) (hL : L ≠ []) :
    ∀ (vals : List (List ℚ × List ℚ)) (start : ℕ),
    start ≤ L.length → L.length < start + vals.length →
    (plotLoop pc kw (some L) start vals).2 = some .labelCountMismatch ∧
    (plotLoop pc kw (some L) start vals).1.length = L.length - start
  | [], start => by
    intro h1 h2
    simp at h2
    omega
  | v :: rest, start => by
    intro h1 h2
    have htl : truthyLabels (some L) = true := by
      cases L with
      | nil => exact absurd rfl hL
      | cons a l => rfl
    rcases Nat.lt_or_ge start L.length with hlt | hge
    · obtain ⟨lab, hget⟩ : ∃ lab, (L.get? start) = some lab :=
        ⟨_, List.get?_eq_get hlt⟩
      have ih := plotLoop_short_labels pc kw hf L hL rest (start + 1)
        (by omega) (by simp at h2 ⊢; omega)
      simp only [plotLoop, hf, htl, if_true, Option.getD_some, hget]
      refine ⟨ih.1, ?_⟩
      simp only [List.length_cons, ih.2]
      omega
    · have hstart : start = L.length := by omega
      have hget : L.get? start = none := List.get?_eq_none.2 hge
      rw [show plotLoop pc kw (some L) start (v :: rest) = ([], some .labelCountMismatch) from
        by simp only [plotLoop, hf, htl, if_true, Option.getD_some, hget]]
      exact ⟨rfl, by simp [hstart]⟩

/-- Closed form of `plot_any` when the drawing loop succeeds: every
configuration option lands in its field of the final figure state and
no exception escapes. -/
theorem plot_any_success {vals : List (List ℚ × List ℚ)} {plotcase : String}
    {labels : Option (List String)} {title x_label y_label : String}
    {xlims ylims : Option (ℚ × ℚ)} {show_ save grid : Bool} {savename : String}
    {linewidth : ℚ} {formatfuncx formatfuncy : Option (ℚ → ℚ → String)}
    {invert : List String} {kw : Kwargs}
    (h : (plotLoop plotcase kw labels 0 vals).2 = none) :
    plot_any vals plotcase labels title x_label y_label xlims ylims show_ save grid
        savename linewidth formatfuncx formatfuncy invert kw =
      ({ rcLinewidth := linewidth, rcFontsize := 30, figsize := (24, 18),
         draws := (plotLoop plotcase kw labels 0 vals).1,
         xlim := xlims, ylim := ylims, xlabel := x_label, ylabel := y_label,
         title := title, tickPadX := 7, grid := grid,
         legend := truthyLabels labels,
         legendLinewidth := if truthyLabels labels then some (5 / 2) else none,
         xinverted := (invertFold invert (false, false)).1,
         yinverted := (invertFold invert (false, false)).2,
         xformatter := formatfuncx, yformatter := formatfuncy,
         saved := if save then some (savename, "tight") else none,
         closed := !show_ }, none) := by
  simp only [plot_any, h]

/-- Closed form of `plot_any` when the drawing loop raises: the partial
draw calls are on the figure, none of the later styling (limits, legend,
inversion, formatters, save, close) has happened, and the exception
propagates. -/
theorem plot_any_fail {vals : List (List ℚ × List ℚ)} {plotcase : String}
    {labels : Option (List String)} {title x_label y_label : String}
    {xlims ylims : Option (ℚ × ℚ)} {show_ save grid : Bool} {savename : String}
    {linewidth : ℚ} {formatfuncx formatfuncy : Option (ℚ → ℚ → String)}
    {invert : List String} {kw : Kwargs} {e : PyErr}
    (h : (plotLoop plotcase kw labels 0 vals).2 = some e) :
    plot_any vals plotcase labels title x_label y_label xlims ylims show_ save grid
        savename linewidth formatfuncx formatfuncy invert kw =
      ({ initState linewidth with draws := (plotLoop plotcase kw labels 0 vals).1 },
        some e) := by
  unfold plot_any
  simp only [h]

/-- C3: for a valid call (known plot kind; labels, when truthy, at least
as long as the series collection) `plot_any` raises nothing, issues
exactly one draw call per series in order (the i-th call carries the
i-th series' x data), and colors the series at index i with entry
`i % 10` of the fixed 10-entry palette. -/
theorem plot_any_count_colors (vals : List (List ℚ × List ℚ)) (plotcase : String)
    (labels : Option (List String)) (title x_label y_label : String)
    (xlims ylims : Option (ℚ × ℚ)) (show_ save grid : Bool) (savename : String)
    (linewidth : ℚ) (formatfuncx formatfuncy : Option (ℚ → ℚ → String))
    (invert : List String) (kw : Kwargs) {f} (hf : exe_func plotcase = some f)
    (hlab : truthyLabels labels = true → vals.length ≤ (labels.getD []).length) :
    (plot_any vals plotcase labels title x_label y_label xlims ylims show_ save grid
        savename linewidth formatfuncx formatfuncy invert kw).2 = none ∧
    (plot_any vals plotcase labels title x_label y_label xlims ylims show_ save grid
        savename linewidth formatfuncx formatfuncy invert kw).1.draws.length = vals.length ∧
    colorcycle.length = 10 ∧
    ∀ i, i < vals.length →
      ((plot_any vals plotcase labels title x_label y_label xlims ylims show_ save grid
          savename linewidth formatfuncx formatfuncy invert kw).1.draws.getD i default).color
        = colorcycle.getD (i % 10) "" ∧
      ((plot_any vals plotcase labels title x_label y_label xlims ylims show_ save grid
          savename linewidth formatfuncx formatfuncy invert kw).1.draws.getD i default).xdata
        = (vals.getD i ([], [])).1 := by
  have hloop := plotLoop_ok plotcase kw labels hf vals 0 (by simpa using hlab)
  rw [plot_any_success hloop.1]
  refine ⟨rfl, hloop.2.1, rfl, ?_⟩
  intro i hi
  have h3 := hloop.2.2 i hi
  exact ⟨by simpa [colorcycle] using h3.1, h3.2.1⟩

/-- Witness for C3 with eleven series: no error, eleven draw calls, and
series 0 and series 10 both get palette color "C0". -/
theorem plot_any_count_colors_witness :
    (plot_any (List.replicate 11 ([1], [1])) "lines" none "" "" "" none none true false false
        "plot.png" 5 none none [] ⟨none, none, none⟩).2 = none ∧
    (plot_any (List.replicate 11 ([1], [1])) "lines" none "" "" "" none none true false false
        "plot.png" 5 none none [] ⟨none, none, none⟩).1.draws.length = 11 ∧
    ((plot_any (List.replicate 11 ([1], [1])) "lines" none "" "" "" none none true false false
        "plot.png" 5 none none [] ⟨none, none, none⟩).1.draws.getD 0 default).color = "C0" ∧
    ((plot_any (List.replicate 11 ([1], [1])) "lines" none "" "" "" none none true false false
        "plot.png" 5 none none [] ⟨none, none, none⟩).1.draws.getD 10 default).color = "C0" := by
  have h := plot_any_count_colors (List.replicate 11 ([1], [1])) "lines" none "" "" "" none
    none true false false "plot.png" 5 none none [] ⟨none, none, none⟩ rfl
    (by simp [truthyLabels])
  refine ⟨h.1, h.2.1.trans (by simp), ?_, ?_⟩
  · exact ((h.2.2.2 0 (by simp)).1).trans (by decide)
  · exact ((h.2.2.2 10 (by simp)).1).trans (by decide)

/-- C4 counterexample: an empty labels list has a different length than
the one-series collection, yet `plot_any` raises nothing — Python's
`if labels:` treats an empty list as false. -/
theorem plot_any_empty_labels_no_error :
    ([] : List String).length ≠ [(([1], [1]) : List ℚ × List ℚ)].length ∧
    (plot_any [([1], [1])] "lines" (some []) "" "" "" none none true false false "plot.png" 5
        none none [] ⟨none, none, none⟩).2 = none := by
  exact ⟨by decide, rfl⟩

/-- C4 amended: when a non-empty labels list is strictly shorter than
the series collection, `plot_any` raises the label-count mismatch —
from the drawing loop (after drawing the first `L.length` series), not
from the legend step (no legend is configured). -/
theorem plot_any_short_labels (vals : List (List ℚ × List ℚ)) (plotcase : String) {f}
    (hf : exe_func plotcase = some f) (L : List String) (hL : L ≠ [])
    (hlen : L.length < vals.length) (title x_label y_label : String)
    (xlims ylims : Option (ℚ × ℚ)) (show_ save grid : Bool) (savename : String)
    (linewidth : ℚ) (formatfuncx formatfuncy : Option (ℚ → ℚ → String))
    (invert : List String) (kw : Kwargs) :
    (plot_any vals plotcase (some L) title x_label y_label xlims ylims show_ save grid
        savename linewidth formatfuncx formatfuncy invert kw).2
      = some PyErr.labelCountMismatch ∧
    (plot_any vals plotcase (some L) title x_label y_label xlims ylims show_ save grid
        savename linewidth formatfuncx formatfuncy invert kw).1.draws.length = L.length ∧
    (plot_any vals plotcase (some L) title x_label y_label xlims ylims show_ save grid
        savename linewidth formatfuncx formatfuncy invert kw).1.legend = false := by
  have hloop := plotLoop_short_labels plotcase kw hf L hL vals 0 (by omega) (by omega)
  rw [plot_any_fail hloop.1]
  exact ⟨rfl, by simpa using hloop.2, rfl⟩

/-- Witness for C4's amended statement: two series, one label — the
mismatch error is raised after one draw call and before any legend. -/
theorem plot_any_short_labels_witness :
    (plot_any [([1], [1]), ([2], [2])] "lines" (some ["a"]) "" "" "" none none true false false
        "plot.png" 5 none none [] ⟨none, none, none⟩).2 = some PyErr.labelCountMismatch ∧
    (plot_any [([1], [1]), ([2], [2])] "lines" (some ["a"]) "" "" "" none none true false false
        "plot.png" 5 none none [] ⟨none, none, none⟩).1.draws.length = 1 ∧
    (plot_any [([1], [1]), ([2], [2])] "lines" (some ["a"]) "" "" "" none none true false false
        "plot.png" 5 none none [] ⟨none, none, none⟩).1.legend = false := by
  have h := plot_any_short_labels [([1], [1]), ([2], [2])] "lines" rfl ["a"] (by decide)
    (by decide) "" "" "" none none true false false "plot.png" 5 none none [] ⟨none, none, none⟩
  exact ⟨h.1, h.2.1, h.2.2⟩

/-- C5 counterexample: with an empty series collection and an unknown
plot kind, `plot_any` completes without raising — `exe_func[plotcase]`
is only evaluated inside the loop body, which never runs. -/
theorem plot_any_unknown_kind_empty_no_error :
    exe_func "bogus" = none ∧
    (plot_any [] "bogus" none "" "" "" none none true false false "plot.png" 5 none none []
        ⟨none, none, none⟩).2 = none := ⟨rfl, rfl⟩

/-- C5 amended: with a non-empty series collection, an unknown plot kind
raises the unknown-plot-kind error on the first iteration, before any
series is drawn. -/
theorem plot_any_unknown_kind (vals : List (List ℚ × List ℚ)) (plotcase : String)
    (hpc : exe_func plotcase = none) (hv : vals ≠ [])
    (labels : Option (List String)) (title x_label y_label : String)
    (xlims ylims : Option (ℚ × ℚ)) (show_ save grid : Bool) (savename : String)
    (linewidth : ℚ) (formatfuncx formatfuncy : Option (ℚ → ℚ → String))
    (invert : List String) (kw : Kwargs) :
    (plot_any vals plotcase labels title x_label y_label xlims ylims show_ save grid
        savename linewidth formatfuncx formatfuncy invert kw).2
      = some PyErr.unknownPlotKind ∧
    (plot_any vals plotcase labels title x_label y_label xlims ylims show_ save grid
        savename linewidth formatfuncx formatfuncy invert kw).1.draws = [] := by
  obtain ⟨v, rest, rfl⟩ : ∃ v r, vals = v :: r := by
    cases vals with
    | nil => exact absurd rfl hv
    | cons a l => exact ⟨a, l, rfl⟩
  have hloop : plotLoop plotcase kw labels 0 (v :: rest) = ([], some .unknownPlotKind) := by
    simp only [plotLoop, hpc]
  rw [plot_any_fail (by rw [hloop])]
  exact ⟨rfl, by simp [hloop]⟩

/-- Witness for C5's amended statement at a concrete unknown kind. -/
theorem plot_any_unknown_kind_witness :
    (plot_any [([1], [1])] "bogus" none "" "" "" none none true false false "plot.png" 5 none
        none [] ⟨none, none, none⟩).2 = some PyErr.unknownPlotKind ∧
    (plot_any [([1], [1])] "bogus" none "" "" "" none none true false false "plot.png" 5 none
        none [] ⟨none, none, none⟩).1.draws = [] := by
  have h := plot_any_unknown_kind [([1], [1])] "bogus" rfl (by decide) none "" "" "" none none
    true false false "plot.png" 5 none none [] ⟨none, none, none⟩
  exact ⟨h.1, h.2⟩

/-- C6 counterexample: a `vlines` series drawn with label "a" reaches
the axes with no label at all — the `vlines` wrapper accepts the label
but does not forward it to `ax.vlines`. -/
theorem plot_any_vlines_label_dropped :
    (plot_any [([1], [1])] "vlines" (some ["a"]) "" "" "" none none true false false "plot.png"
        5 none none [] ⟨none, none, none⟩).1.draws.map AxCall.label = [none] ∧
    (plot_any [([1], [1])] "vlines" (some ["a"]) "" "" "" none none true false false "plot.png"
        5 none none [] ⟨none, none, none⟩).1.draws.map AxCall.label ≠ [some "a"] := by
  exact ⟨rfl, by decide⟩

/-- C6 amended: for the `lines` and `points` strategies the label at
position i reaches the draw primitive of the series at position i; for
`vlines` the label is accepted but dropped, so the drawn series carries
no label. -/
theorem plot_any_label_forwarding (vals : List (List ℚ × List ℚ)) (plotcase : String) {f}
    (hf : exe_func plotcase = some f) (hpc : plotcase ≠ "vlines") (L : List String)
    (hL : L ≠ []) (hlen : vals.length ≤ L.length) (title x_label y_label : String)
    (xlims ylims : Option (ℚ × ℚ)) (show_ save grid : Bool) (savename : String)
    (linewidth : ℚ) (formatfuncx formatfuncy : Option (ℚ → ℚ → String))
    (invert : List String) (kw : Kwargs) :
    (∀ i, i < vals.length →
      ((plot_any vals plotcase (some L) title x_label y_label xlims ylims show_ save grid
          savename linewidth formatfuncx formatfuncy invert kw).1.draws.getD i default).label
        = L.get? i) ∧
    (∀ i, i < vals.length →
      ((plot_any vals "vlines" (some L) title x_label y_label xlims ylims show_ save grid
          savename linewidth formatfuncx formatfuncy invert kw).1.draws.getD i default).label
        = none) := by
  have htl : truthyLabels (some L) = true := by
    cases L with
    | nil => exact absurd rfl hL
    | cons a l => rfl
  constructor
  · have hloop := plotLoop_ok plotcase kw (some L) hf vals 0 (by intro _; simpa using hlen)
    rw [plot_any_success hloop.1]
    intro i hi
    have h3 := (hloop.2.2 i hi).2.2
    simpa [hpc, htl] using h3
  · have hloop := plotLoop_ok "vlines" kw (some L) rfl vals 0 (by intro _; simpa using hlen)
    rw [plot_any_success hloop.1]
    intro i hi
    have h3 := (hloop.2.2 i hi).2.2
    simpa using h3

/-- Witness for C6's amended statement: with one series and label "a",
`lines` passes the label through while `vlines` drops it. -/
theorem plot_any_label_forwarding_witness :
    ((plot_any [([1], [1])] "lines" (some ["a"]) "" "" "" none none true false false "plot.png"
        5 none none [] ⟨none, none, none⟩).1.draws.getD 0 default).label = some "a" ∧
    ((plot_any [([1], [1])] "vlines" (some ["a"]) "" "" "" none none true false false "plot.png"
        5 none none [] ⟨none, none, none⟩).1.draws.getD 0 default).label = none := by
  have h := plot_any_label_forwarding [([1], [1])] "lines" rfl (by decide) ["a"] (by decide)
    (by decide) "" "" "" none none true false false "plot.png" 5 none none [] ⟨none, none, none⟩
  exact ⟨h.1 0 (by decide), h.2 0 (by decide)⟩

/-- C7: relative to `invert=[]`, `invert=['x','y']` reverses both axis
directions, and `invert=['x','x']` (double inversion of one axis)
leaves every direction as it was — inversion toggles. -/
theorem plot_any_invert_involutive (vals : List (List ℚ × List ℚ)) (plotcase : String)
    (labels : Option (List String)) (title x_label y_label : String)
    (xlims ylims : Option (ℚ × ℚ)) (show_ save grid : Bool) (savename : String)
    (linewidth : ℚ) (formatfuncx formatfuncy : Option (ℚ → ℚ → String)) (kw : Kwargs)
    (hloop : (plotLoop plotcase kw labels 0 vals).2 = none) :
    (plot_any vals plotcase labels title x_label y_label xlims ylims show_ save grid
        savename linewidth formatfuncx formatfuncy ["x", "y"] kw).1.xinverted
      = !(plot_any vals plotcase labels title x_label y_label xlims ylims show_ save grid
        savename linewidth formatfuncx formatfuncy [] kw).1.xinverted ∧
    (plot_any vals plotcase labels title x_label y_label xlims ylims show_ save grid
        savename linewidth formatfuncx formatfuncy ["x", "y"] kw).1.yinverted
      = !(plot_any vals plotcase labels title x_label y_label xlims ylims show_ save grid
        savename linewidth formatfuncx formatfuncy [] kw).1.yinverted ∧
    (plot_any vals plotcase labels title x_label y_label xlims ylims show_ save grid
        savename linewidth formatfuncx formatfuncy ["x", "x"] kw).1.xinverted
      = (plot_any vals plotcase labels title x_label y_label xlims ylims show_ save grid
        savename linewidth formatfuncx formatfuncy [] kw).1.xinverted ∧
    (plot_any vals plotcase labels title x_label y_label xlims ylims show_ save grid
        savename linewidth formatfuncx formatfuncy ["x", "x"] kw).1.yinverted
      = (plot_any vals plotcase labels title x_label y_label xlims ylims show_ save grid
        savename linewidth formatfuncx formatfuncy [] kw).1.yinverted := by
  simp only [plot_any_success hloop]
  exact ⟨rfl, rfl, rfl, rfl⟩

/-- Witness for C7 at a concrete one-series call. -/
theorem plot_any_invert_involutive_witness :
    (plot_any [([1], [1])] "lines" none "" "" "" none none true false false "plot.png" 5 none
        none ["x", "y"] ⟨none, none, none⟩).1.xinverted
      = !(plot_any [([1], [1])] "lines" none "" "" "" none none true false false "plot.png" 5
        none none [] ⟨none, none, none⟩).1.xinverted ∧
    (plot_any [([1], [1])] "lines" none "" "" "" none none true false false "plot.png" 5 none
        none ["x", "x"] ⟨none, none, none⟩).1.xinverted
      = (plot_any [([1], [1])] "lines" none "" "" "" none none true false false "plot.png" 5
        none none [] ⟨none, none, none⟩).1.xinverted := by
  have h := plot_any_invert_involutive [([1], [1])] "lines" none "" "" "" none none true false
    false "plot.png" 5 none none ⟨none, none, none⟩ rfl
  exact ⟨h.1, h.2.2.1⟩

/-- C8: with `save=True, show=False` and a successful draw loop,
`plot_any` saves the figure to `savename` with tight bounding box and
closes the figure, raising nothing. -/
theorem plot_any_save_and_close (vals : List (List ℚ × List ℚ)) (plotcase : String)
    (labels : Option (List String)) (title x_label y_label : String)
    (xlims ylims : Option (ℚ × ℚ)) (grid : Bool) (savename : String)
    (linewidth : ℚ) (formatfuncx formatfuncy : Option (ℚ → ℚ → String))
    (invert : List String) (kw : Kwargs)
    (hloop : (plotLoop plotcase kw labels 0 vals).2 = none) :
    (plot_any vals plotcase labels title x_label y_label xlims ylims false true grid
        savename linewidth formatfuncx formatfuncy invert kw).1.saved
      = some (savename, "tight") ∧
    (plot_any vals plotcase labels title x_label y_label xlims ylims false true grid
        savename linewidth formatfuncx formatfuncy invert kw).1.closed = true ∧
    (plot_any vals plotcase labels title x_label y_label xlims ylims false true grid
        savename linewidth formatfuncx formatfuncy invert kw).2 = none := by
  rw [plot_any_success hloop]
  exact ⟨rfl, rfl, rfl⟩

/-- Witness for C8 at a concrete call with the default savename. -/
theorem plot_any_save_and_close_witness :
    (plot_any [([1], [1])] "lines" none "" "" "" none none false true false "plot.png" 5 none
        none [] ⟨none, none, none⟩).1.saved = some ("plot.png", "tight") ∧
    (plot_any [([1], [1])] "lines" none "" "" "" none none false true false "plot.png" 5 none
        none [] ⟨none, none, none⟩).1.closed = true := by
  have h := plot_any_save_and_close [([1], [1])] "lines" none "" "" "" none none false
    "plot.png" 5 none none [] ⟨none, none, none⟩ rfl
  exact ⟨h.1, h.2.1⟩

/-- C10: with an empty series collection the drawing loop performs zero
draw calls and `plot_any` completes without raising — for every plot
kind, known or not — still applying the styling options. -/
theorem plot_any_empty_vals (plotcase : String) (labels : Option (List String))
    (title x_label y_label : String) (xlims ylims : Option (ℚ × ℚ))
    (show_ save grid : Bool) (savename : String) (linewidth : ℚ)
    (formatfuncx formatfuncy : Option (ℚ → ℚ → String)) (invert : List String)
    (kw : Kwargs) :
    (plot_any [] plotcase labels title x_label y_label xlims ylims show_ save grid
        savename linewidth formatfuncx formatfuncy invert kw).2 = none ∧
    (plot_any [] plotcase labels title x_label y_label xlims ylims show_ save grid
        savename linewidth formatfuncx formatfuncy invert kw).1.draws = [] ∧
    (plot_any [] plotcase labels title x_label y_label xlims ylims show_ save grid
        savename linewidth formatfuncx formatfuncy invert kw).1.title = title ∧
    (plot_any [] plotcase labels title x_label y_label xlims ylims show_ save grid
        savename linewidth formatfuncx formatfuncy invert kw).1.grid = grid := by
  rw [plot_any_success (show (plotLoop plotcase kw labels 0 []).2 = none from rfl)]
  exact ⟨rfl, rfl, rfl, rfl⟩

end MyPlots
